import Mathlib

/-!
Shallow embedding of `src/get_user/auto_login.py` (anyrouter.top batch login
script).  The browser, the network and the JSON files are modelled as explicit
environment data; the script's control flow — including the order in which the
statements of `main`'s per-account loop execute — is translated statement by
statement.  In particular the loop body of `main` builds `out_item` from the
local variable `info` BEFORE the assignment `info = login_and_extract(...)`
runs (lines 185-193 of the source), which is modelled faithfully: reading the
unbound local raises, and the exception propagates out of the loop.
-/

set_option maxHeartbeats 1000000

namespace AutoLogin

/-- A minimal model of JSON-decoded Python values, covering what the script
reads from the user-info API response and from localStorage.  Numbers are
modelled as integers (the id fields the code extracts are integral). -/
inductive JsonVal where
  | null : JsonVal
  | bool (b : Bool) : JsonVal
  | num (n : Int) : JsonVal
  | str (s : String) : JsonVal
  | arr (xs : List JsonVal) : JsonVal
  | obj (fields : List (String × JsonVal)) : JsonVal

/-- Python truthiness `bool(x)` of a JSON-decoded value. -/
def JsonVal.truthy : JsonVal → Bool
  | .null => false
  | .bool b => b
  | .num n => n != 0
  | .str s => s != ""
  | .arr xs => !xs.isEmpty
  | .obj fields => !fields.isEmpty

/-- Python dict lookup `d.get(k)` on a JSON object (no duplicate keys in a
decoded Python dict, so first match suffices). -/
def jsonLookup (k : String) : List (String × JsonVal) → Option JsonVal
  | [] => none
  | p :: rest => if p.1 == k then some p.2 else jsonLookup k rest

mutual

/-- Python `repr` of a JSON-decoded value (used by `str` on non-strings). -/
def pyRepr : JsonVal → String
  | .null => "None"
  | .bool b => if b then "True" else "False"
  | .num n => toString n
  | .str s => "\x27" ++ s ++ "\x27"
  | .arr xs => "[" ++ pyReprList xs ++ "]"
  | .obj fields => "\x7b" ++ pyReprFields fields ++ "\x7d"

/-- Comma-separated reprs of a list of values. -/
def pyReprList : List JsonVal → String
  | [] => ""
  | [x] => pyRepr x
  | x :: rest => pyRepr x ++ ", " ++ pyReprList rest

/-- Comma-separated `key: value` reprs of a dict body. -/
def pyReprFields : List (String × JsonVal) → String
  | [] => ""
  | [p] => "\x27" ++ p.1 ++ "\x27: " ++ pyRepr p.2
  | p :: rest => "\x27" ++ p.1 ++ "\x27: " ++ pyRepr p.2 ++ ", " ++ pyReprFields rest

end

/-- Python `str(x)` of a JSON-decoded value, as used in `str(api_user)`. -/
def pyStr : JsonVal → String
  | .str s => s
  | v => pyRepr v

/-- Python `x or y` on optional JSON values (`data.get('id') or
data.get('user_id')`): keep `x` when it is bound and truthy, else `y`. -/
def pyOr (a b : Option JsonVal) : Option JsonVal :=
  match a with
  | some v => if v.truthy then some v else b
  | none => b

/-- Python `x or d` where `x` is an optional string (`info.get(...) or ""`). -/
def pyOrStr (x : Option String) (d : String) : String :=
  match x with
  | some s => if s == "" then d else s
  | none => d

/-- Truthiness of an optional string (Python `None` or `str`). -/
def strOptTruthy : Option String → Bool
  | none => false
  | some s => s != ""

/-- Truthiness of an optional JSON value (Python `None` or decoded value). -/
def jsonOptTruthy : Option JsonVal → Bool
  | none => false
  | some v => v.truthy

/-- Python `str.strip()`: drop whitespace from both ends. -/
def pyStrip (s : String) : String :=
  String.mk (((s.data.dropWhile Char.isWhitespace).reverse.dropWhile Char.isWhitespace).reverse)

/-- One cookie as returned by `page.context.cookies()`. -/
structure Cookie where
  name : String
  value : String
deriving Repr, DecidableEq

/-- Outcome of `page.goto(f"{BASE_URL}/api/user/info", ...)` followed by
`response.json()`:  the navigation may raise, may return no response object,
or returns a status plus a body (`none` meaning `response.json()` raised). -/
inductive ApiResult where
  | exn (msg : String) : ApiResult
  | noResponse : ApiResult
  | resp (status : Nat) (body : Option JsonVal) : ApiResult

/-- What the driven browser exposes to `login_and_extract` for one account.
The `...Error` fields model exceptions raised by the corresponding Playwright
calls (`none` = the call succeeds).  `localStorage` is the parse of
`JSON.stringify(localStorage)`: a list of key/value entries whose values are
`some` JSON value when `json.loads(value)` succeeds and `none` when it raises.
The outer `Option` is `none` when `page.evaluate` itself raises. -/
structure BrowserEnv where
  navError : Option String
  dialogError : Option String
  formError : Option String
  cookieError : Option String
  currentUrl : String
  cookies : List Cookie
  apiResult : ApiResult
  localStorage : Option (List (String × Option JsonVal))

/-- The dict returned by `login_and_extract` (lines 120-126 on success,
lines 130-135 on failure).  Keys absent from one of the two dict literals are
modelled as `none`. -/
structure LoginOutcome where
  success : Bool
  error : Option String
  session_cookie : Option String
  api_user : Option String
  current_url : Option String
  all_cookies : Option (List (String × String))
deriving Repr, DecidableEq

/-- The failure dict built by the `except` clause of `login_and_extract`. -/
def loginFailure (e : String) : LoginOutcome :=
  { success := false, error := some e, session_cookie := none,
    api_user := none, current_url := none, all_cookies := none }

/-- Lines 78-82: scan the cookie list for the first cookie named "session"
and take its value (the loop breaks at the first hit). -/
def findSessionCookie : List Cookie → Option String
  | [] => none
  | c :: rest => if c.name == "session" then some c.value else findSessionCookie rest

/-- Insert a binding into an assoc list with Python-dict semantics: a later
value for the same key overwrites the earlier one, order of first insertion
is kept. -/
def dictInsert (d : List (String × String)) (k v : String) : List (String × String) :=
  if d.any (fun p => p.1 == k) then
    d.map (fun p => if p.1 == k then (k, v) else p)
  else d ++ [(k, v)]

/-- Line 125: the dict comprehension over all cookies. -/
def dictOfCookies (cs : List Cookie) : List (String × String) :=
  cs.foldl (fun d c => dictInsert d c.name c.value) []

/-- Lines 90-99, method 1: call the user-info endpoint.  Any exception inside
the `try` (navigation timeout, non-JSON body, `data` not being a dict) is
caught and leaves `api_user` unset. -/
def apiUserFromApi : ApiResult → Option JsonVal
  | .exn _ => none
  | .noResponse => none
  | .resp status body =>
    if status == 200 then
      match body with
      | none => none
      | some userData =>
        match userData with
        | .obj fields =>
          match (jsonLookup "data" fields).getD (.obj []) with
          | .obj dataFields => pyOr (jsonLookup "id" dataFields) (jsonLookup "user_id" dataFields)
          | _ => none
        | _ => none
    else none

/-- Lines 107-114, method 2: scan localStorage entries in order; the first
value that parses to a dict containing an "id" key supplies `api_user` and the
loop breaks; unparsable or non-dict values are skipped. -/
def apiUserFromStorage : List (String × Option JsonVal) → Option JsonVal
  | [] => none
  | e :: rest =>
    match e.2 with
    | some (.obj fields) =>
      match jsonLookup "id" fields with
      | some idv => some idv
      | none => apiUserFromStorage rest
    | _ => apiUserFromStorage rest

/-- Lines 87-116: resolve `api_user`, trying the API first and localStorage
second (`if not api_user:`); a failed `page.evaluate` (storage `none`) or a
fruitless scan leaves the method-1 value in place. -/
def resolveApiUser (api : ApiResult) (storage : Option (List (String × Option JsonVal))) :
    Option JsonVal :=
  let a1 := apiUserFromApi api
  if jsonOptTruthy a1 then a1
  else
    match storage with
    | none => a1
    | some entries =>
      match apiUserFromStorage entries with
      | some v => some v
      | none => a1

/-- Line 123: `str(api_user) if api_user else None`. -/
def apiUserField (a : Option JsonVal) : Option String :=
  match a with
  | some v => if v.truthy then some (pyStr v) else none
  | none => none

/-- Lines 37-135: the whole of `login_and_extract`.  The outer `try` catches
every exception raised by navigation, the form interaction or the cookie read
and turns it into the failure dict; the announcement-dialog block (lines
45-54) swallows its own exceptions, so `dialogError` never affects the
result; the two `api_user` methods swallow theirs as modelled above. -/
def login_and_extract (env : BrowserEnv) : LoginOutcome :=
  match env.navError with
  | some e => loginFailure e
  | none =>
    match env.formError with
    | some e => loginFailure e
    | none =>
      match env.cookieError with
      | some e => loginFailure e
      | none =>
        let session_cookie := findSessionCookie env.cookies
        let api_user := resolveApiUser env.apiResult env.localStorage
        { success := strOptTruthy session_cookie || jsonOptTruthy api_user,
          error := none,
          session_cookie := session_cookie,
          api_user := apiUserField api_user,
          current_url := some env.currentUrl,
          all_cookies := some (dictOfCookies env.cookies) }

/-- One record of `user.json`, a JSON object whose four fields are optional
strings (`none` models an absent key, read back as `""` by `user.get(k, "")`). -/
structure UserRecord where
  name : Option String
  provider : Option String
  username : Option String
  password : Option String
deriving Repr, DecidableEq

/-- The nested `cookies` dict of an output item (line 189-191). -/
structure OutCookies where
  session : String
deriving Repr, DecidableEq

/-- One element of the `results` list written to `anyrouter_accounts.json`. -/
structure OutItem where
  name : String
  provider : String
  api_user : String
  cookies : OutCookies
deriving Repr, DecidableEq

/-- Lines 185-192: assemble `out_item` from the defaulted name/provider and
the dict bound to the local `info`. -/
def buildOutItem (name provider : String) (info : LoginOutcome) : OutItem :=
  { name := name, provider := provider,
    api_user := pyOrStr info.api_user "",
    cookies := { session := pyOrStr info.session_cookie "" } }

/-- Record credential validity, line 173: the record is processed iff the
stripped username and password are both non-empty. -/
def isValid (u : UserRecord) : Bool :=
  pyStrip (u.username.getD "") != "" && pyStrip (u.password.getD "") != ""

/-- Observable milestones of a run, in order of occurrence. -/
inductive Event where
  | configError (msg : String) : Event
  | emptyNotice : Event
  | browserLaunched : Event
  | skipNotice (idx : Nat) : Event
  | contextOpened (idx : Nat) : Event
  | contextClosed (idx : Nat) : Event
  | delay (idx : Nat) : Event
  | crash (msg : String) : Event
  | browserClosed : Event
  | outputWritten : Event
deriving Repr, DecidableEq

/-- The message of the exception raised at line 188 when the local `info` is
read before its first assignment (line 193). -/
def unboundInfoError : String :=
  "UnboundLocalError: local variable \x27info\x27 referenced before assignment"

/-- State threaded through `main`'s account loop: the binding of the local
`info` (`none` = not yet assigned, so a read raises), the `results` list, the
event trace, and the unhandled exception if one has escaped the loop body. -/
structure LoopState where
  info : Option LoginOutcome
  results : List OutItem
  events : List Event
  crashed : Option String
deriving Repr, DecidableEq

/-- Lines 160-206: one iteration of `for idx, user in enumerate(user_list)`.
Once an exception has escaped (crashed ≠ none) no further iteration runs.
An invalid record prints a skip notice and `continue`s — which also skips the
inter-account sleep.  For a valid record a fresh context is opened, then the
`try` block builds `out_item` from `info` — raising if `info` is unbound —
then assigns `info` from `login_and_extract` and appends; the `finally`
closes the context on both paths; the sleep at lines 204-206 runs only when
the body completed and `idx < len(user_list) - 1`. -/
def loopStep (envs : Nat → BrowserEnv) (total : Nat) (st : LoopState)
    (idx : Nat) (u : UserRecord) : LoopState :=
  if st.crashed.isSome then st else
  let name0 := pyStrip (u.name.getD "")
  let provider0 := pyStrip (u.provider.getD "")
  let username := pyStrip (u.username.getD "")
  let password := pyStrip (u.password.getD "")
  let provider := if provider0 == "" then "anyrouter.top" else provider0
  let name := if name0 == "" then "账号" ++ toString (idx + 1) else name0
  if username == "" || password == "" then
    { st with events := st.events ++ [Event.skipNotice idx] }
  else
    let evs1 := st.events ++ [Event.contextOpened idx]
    match st.info with
    | none =>
      { st with events := evs1 ++ [Event.contextClosed idx],
                crashed := some unboundInfoError }
    | some prev =>
      let out_item := buildOutItem name provider prev
      let newInfo := login_and_extract (envs idx)
      let st1 : LoopState :=
        { info := some newInfo,
          results := st.results ++ [out_item],
          events := evs1 ++ [Event.contextClosed idx],
          crashed := st.crashed }
      if idx < total - 1 then { st1 with events := st1.events ++ [Event.delay idx] }
      else st1

/-- The account loop itself, indices counting up from `idx` as `enumerate`
does from 0. -/
def runUsers (envs : Nat → BrowserEnv) (total : Nat) :
    Nat → List UserRecord → LoopState → LoopState
  | _, [], st => st
  | idx, u :: rest, st => runUsers envs total (idx + 1) rest (loopStep envs total st idx u)

/-- How the attempt to load `user.json` went: the file may be missing
(`FileNotFoundError`), unparsable (`json.JSONDecodeError`), or yield a list
of records. -/
inductive ConfigInput where
  | missing : ConfigInput
  | invalid (msg : String) : ConfigInput
  | parsed (users : List UserRecord) : ConfigInput

/-- The observables of a whole run: the event trace, the content of the
output file (`none` = the file was never written), and the unhandled
exception that terminated the process, if any. -/
structure RunResult where
  events : List Event
  output : Option (List OutItem)
  crashed : Option String
deriving Repr, DecidableEq

/-- Lines 137-217: `main`.  A load failure prints the error and returns; an
empty list prints a notice and returns; both before the browser is launched
and without writing the output file.  Otherwise the browser starts, the loop
runs, and — only if no exception escaped the loop — the browser is closed and
`results` is dumped to the output file. -/
def main (cfg : ConfigInput) (envs : Nat → BrowserEnv) : RunResult :=
  match cfg with
  | .missing =>
    { events := [Event.configError "FileNotFoundError"], output := none, crashed := none }
  | .invalid msg =>
    { events := [Event.configError ("JSONDecodeError: " ++ msg)], output := none, crashed := none }
  | .parsed users =>
    if users.isEmpty then
      { events := [Event.emptyNotice], output := none, crashed := none }
    else
      let st := runUsers envs users.length 0 users
        { info := none, results := [], events := [Event.browserLaunched], crashed := none }
      match st.crashed with
      | some msg =>
        { events := st.events ++ [Event.crash msg], output := none, crashed := some msg }
      | none =>
        { events := st.events ++ [Event.browserClosed, Event.outputWritten],
          output := some st.results, crashed := none }

/-- A record with only credentials set (the spec's scenario input
`[{"username":"a","password":"b"}]`). -/
def demoUser : UserRecord :=
  { name := none, provider := none, username := some "a", password := some "b" }

/-- A second valid record with every field present. -/
def demoUser2 : UserRecord :=
  { name := some "B", provider := some "other.example",
    username := some "c", password := some "d" }

/-- A record whose name strips to empty and whose provider is empty, so both
defaults apply. -/
def demoUserNoName : UserRecord :=
  { name := some "  ", provider := some "", username := some "u", password := some "p" }

/-- A browser environment for a fully successful login: a session cookie
"XYZ" and a user-info response `{"data": {"id": 42}}`. -/
def demoEnv : BrowserEnv :=
  { navError := none, dialogError := none, formError := none, cookieError := none,
    currentUrl := "https://anyrouter.top/console",
    cookies := [{ name := "session", value := "XYZ" }],
    apiResult := .resp 200 (some (.obj [("data", .obj [("id", .num 42)])])),
    localStorage := some [] }

/-- The same environment but with the initial navigation timing out. -/
def demoNavErrEnv : BrowserEnv :=
  { demoEnv with navError := some "TimeoutError: page.goto exceeded 30000ms" }

theorem loopStep_crashed (envs : Nat → BrowserEnv) (total : Nat) (st : LoopState)
    (idx : Nat) (u : UserRecord) (h : st.crashed.isSome) :
    loopStep envs total st idx u = st := by
  simp [loopStep, h]

theorem runUsers_crashed (envs : Nat → BrowserEnv) (total : Nat) (users : List UserRecord) :
    ∀ (idx : Nat) (st : LoopState), st.crashed.isSome →
      runUsers envs total idx users st = st := by
  induction users with
  | nil => intro idx st _; rfl
  | cons u rest ih =>
    intro idx st h
    simp only [runUsers, loopStep_crashed envs total st idx u h]
    exact ih (idx + 1) st h

theorem loopStep_of_not_valid (envs : Nat → BrowserEnv) (total : Nat) (st : LoopState)
    (idx : Nat) (u : UserRecord) (h : st.crashed = none) (hv : isValid u = false) :
    loopStep envs total st idx u = { st with events := st.events ++ [Event.skipNotice idx] } := by
  have hc : (pyStrip (u.username.getD "") == "" || pyStrip (u.password.getD "") == "") = true := by
    cases hu : (pyStrip (u.username.getD "") == "") <;>
      cases hp : (pyStrip (u.password.getD "") == "") <;>
      simp_all [isValid, bne]
  simp [loopStep, h, hc]

theorem loopStep_unbound (envs : Nat → BrowserEnv) (total : Nat) (st : LoopState)
    (idx : Nat) (u : UserRecord) (h : st.crashed = none) (hinfo : st.info = none)
    (hv : isValid u = true) :
    loopStep envs total st idx u =
      { st with
          events := st.events ++ [Event.contextOpened idx, Event.contextClosed idx],
          crashed := some unboundInfoError } := by
  have hu : (pyStrip (u.username.getD "") == "") = false := by
    cases hx : (pyStrip (u.username.getD "") == "") <;> simp_all [isValid, bne]
  have hp : (pyStrip (u.password.getD "") == "") = false := by
    cases hx : (pyStrip (u.password.getD "") == "") <;> simp_all [isValid, bne]
  simp [loopStep, h, hu, hp, hinfo]

theorem runUsers_unbound (envs : Nat → BrowserEnv) (total : Nat) (users : List UserRecord) :
    ∀ (idx : Nat) (st : LoopState), st.crashed = none → st.info = none →
      (∃ u ∈ users, isValid u = true) →
      (runUsers envs total idx users st).crashed = some unboundInfoError := by
  induction users with
  | nil => intro idx st _ _ hex; simp at hex
  | cons u rest ih =>
    intro idx st hc hinfo hex
    by_cases hv : isValid u = true
    · rw [runUsers, loopStep_unbound envs total st idx u hc hinfo hv,
        runUsers_crashed envs total rest (idx + 1) _ (by simp)]
    · have hvf : isValid u = false := by cases hx : isValid u <;> simp_all
      rw [runUsers, loopStep_of_not_valid envs total st idx u hc hvf]
      refine ih (idx + 1) _ (by simpa using hc) (by simpa using hinfo) ?_
      obtain ⟨w, hw, hwv⟩ := hex
      rcases List.mem_cons.1 hw with rfl | hw
      · exact absurd hwv hv
      · exact ⟨w, hw, hwv⟩

theorem loopStep_events_shape (envs : Nat → BrowserEnv) (total : Nat) (st : LoopState)
    (idx : Nat) (u : UserRecord) (i : Nat) :
    ∃ tail, (loopStep envs total st idx u).events = st.events ++ tail ∧
      (Event.contextOpened i ∈ tail → Event.contextClosed i ∈ tail) := by
  unfold loopStep
  by_cases hc : st.crashed.isSome
  · exact ⟨[], by simp [hc], by simp⟩
  · simp only [hc, if_false, Bool.false_eq_true]
    by_cases hskip :
      (pyStrip (u.username.getD "") == "" || pyStrip (u.password.getD "") == "") = true
    · exact ⟨[Event.skipNotice idx], by simp [hskip], by simp⟩
    · cases hinfo : st.info with
      | none =>
        refine ⟨[Event.contextOpened idx, Event.contextClosed idx], by simp [hskip, hinfo], ?_⟩
        intro hm
        simp only [List.mem_cons, List.not_mem_nil, or_false] at hm ⊢
        rcases hm with hm | hm
        · injection hm with h; subst h; right; rfl
        · exact absurd hm (by simp)
      | some prev =>
        by_cases hd : idx < total - 1
        · refine ⟨[Event.contextOpened idx, Event.contextClosed idx, Event.delay idx],
            by simp [hskip, hinfo, hd], ?_⟩
          intro hm
          simp only [List.mem_cons, List.not_mem_nil, or_false] at hm ⊢
          rcases hm with hm | hm | hm
          · injection hm with h; subst h; right; left; rfl
          · exact absurd hm (by simp)
          · exact absurd hm (by simp)
        · refine ⟨[Event.contextOpened idx, Event.contextClosed idx],
            by simp [hskip, hinfo, hd], ?_⟩
          intro hm
          simp only [List.mem_cons, List.not_mem_nil, or_false] at hm ⊢
          rcases hm with hm | hm
          · injection hm with h; subst h; right; rfl
          · exact absurd hm (by simp)

theorem runUsers_contexts (envs : Nat → BrowserEnv) (total : Nat) (users : List UserRecord) :
    ∀ (idx : Nat) (st : LoopState) (i : Nat),
      (Event.contextOpened i ∈ st.events → Event.contextClosed i ∈ st.events) →
      Event.contextOpened i ∈ (runUsers envs total idx users st).events →
      Event.contextClosed i ∈ (runUsers envs total idx users st).events := by
  induction users with
  | nil => intro idx st i h hm; exact h hm
  | cons u rest ih =>
    intro idx st i h hm
    simp only [runUsers] at hm ⊢
    refine ih (idx + 1) _ i ?_ hm
    obtain ⟨tail, hev, htail⟩ := loopStep_events_shape envs total st idx u i
    intro hop
    rw [hev] at hop ⊢
    rcases List.mem_append.1 hop with h1 | h1
    · exact List.mem_append.2 (Or.inl (h h1))
    · exact List.mem_append.2 (Or.inr (htail h1))

/-- Claim C1 (failing-input evaluation).  The claim says a run over a parsed
configuration writes an output sequence with exactly one entry per record
with non-empty credentials.  On the input `[{"username":"a","password":"b"}]`
— a single record that IS valid — the run writes no output file at all: the
`out_item` construction reads the unbound local `info` and the resulting
exception aborts the run before anything is appended or written. -/
theorem C1_valid_record_run_writes_no_output :
    isValid demoUser = true ∧
    (main (ConfigInput.parsed [demoUser]) (fun _ => demoEnv)).output = none := by
  decide

/-- Claim C2 (failing-input evaluation).  The login flow does yield the
"session" cookie value "XYZ" (first conjunct: `login_and_extract` extracts it
exactly), but no output record ever carries it: the run aborts on the unbound
`info` read and the output file is never written. -/
theorem C2_session_cookie_extracted_but_never_written :
    (login_and_extract demoEnv).session_cookie = some "XYZ" ∧
    (main (ConfigInput.parsed [demoUser]) (fun _ => demoEnv)).output = none := by
  decide

/-- Claim C3 (failing-input evaluation).  The two-step id resolution does
work inside `login_and_extract` — the user-info endpoint body
`{"data": {"id": 42}}` yields the stringified id "42" — but no output record
ever carries an `api_user`: the run aborts on the unbound `info` read and the
output file is never written. -/
theorem C3_api_user_resolved_but_never_written :
    (login_and_extract demoEnv).api_user = some "42" ∧
    (main (ConfigInput.parsed [demoUser]) (fun _ => demoEnv)).output = none := by
  decide

/-- Claim C4 (failing-input evaluation).  Exceptions inside the login and
extraction steps are indeed caught and converted to a failure result (first
conjunct: a navigation timeout yields the failure dict), but the claim's
"no error ever aborts the whole run except the initial configuration load" is
false: with a perfectly healthy browser environment the run still aborts with
an UnboundLocalError raised by the result construction. -/
theorem C4_step_errors_caught_but_construction_error_aborts :
    login_and_extract demoNavErrEnv =
      loginFailure "TimeoutError: page.goto exceeded 30000ms" ∧
    (main (ConfigInput.parsed [demoUser]) (fun _ => demoEnv)).crashed =
      some unboundInfoError := by
  decide

/-- Claim C5: whenever the configuration holds at least one record with
non-empty (stripped) username and password, the per-account result
construction reads `info` before its first assignment, so the run terminates
with an unhandled UnboundLocalError and no output file is written. -/
theorem C5_unbound_info_read_aborts_run (users : List UserRecord)
    (envs : Nat → BrowserEnv) (h : ∃ u ∈ users, isValid u = true) :
    (main (ConfigInput.parsed users) envs).crashed = some unboundInfoError ∧
    (main (ConfigInput.parsed users) envs).output = none := by
  have hne : users.isEmpty = false := by
    obtain ⟨u, hu, _⟩ := h
    cases users with
    | nil => simp at hu
    | cons a l => rfl
  have hcr : (runUsers envs users.length 0 users
      { info := none, results := [], events := [Event.browserLaunched],
        crashed := none }).crashed = some unboundInfoError :=
    runUsers_unbound envs users.length users 0 _ rfl rfl h
  unfold main
  simp [hne, hcr]

/-- Witness for C5 at the concrete input `[{"username":"a","password":"b"}]`. -/
theorem C5_unbound_info_read_aborts_run_witness :
    (main (ConfigInput.parsed [demoUser]) (fun _ => demoEnv)).crashed =
      some unboundInfoError ∧
    (main (ConfigInput.parsed [demoUser]) (fun _ => demoEnv)).output = none :=
  C5_unbound_info_read_aborts_run [demoUser] (fun _ => demoEnv)
    ⟨demoUser, by decide, by decide⟩

/-- Claim C6 (failing-input evaluation).  On a record whose name strips to
empty and whose provider is empty, the defaults "账号1" and "anyrouter.top"
are computed, but no output record ever exists to carry them: the run aborts
on the unbound `info` read before anything is written. -/
theorem C6_defaults_computed_but_never_written :
    (main (ConfigInput.parsed [demoUserNoName]) (fun _ => demoEnv)).output = none ∧
    Event.outputWritten ∉
      (main (ConfigInput.parsed [demoUserNoName]) (fun _ => demoEnv)).events := by
  decide

/-- Claim C7: when `user.json` is missing or fails to parse, `main` reports
the load error as its only observable action — in particular the browser is
never launched, no login is attempted, and the output file is not written. -/
theorem C7_config_load_failure_halts (cfg : ConfigInput) (envs : Nat → BrowserEnv)
    (h : cfg = ConfigInput.missing ∨ ∃ m, cfg = ConfigInput.invalid m) :
    (main cfg envs).output = none ∧
    ∃ m, (main cfg envs).events = [Event.configError m] := by
  rcases h with rfl | ⟨m, rfl⟩
  · exact ⟨rfl, "FileNotFoundError", rfl⟩
  · exact ⟨rfl, "JSONDecodeError: " ++ m, rfl⟩

/-- Witness for C7 with the configuration file missing. -/
theorem C7_config_load_failure_halts_witness :
    (main ConfigInput.missing (fun _ => demoEnv)).output = none ∧
    ∃ m, (main ConfigInput.missing (fun _ => demoEnv)).events = [Event.configError m] :=
  C7_config_load_failure_halts ConfigInput.missing (fun _ => demoEnv) (Or.inl rfl)

/-- Claim C8: every browser context opened for an account is closed on every
exit path — the `finally` runs both when the loop body completes and when it
raises, so any `contextOpened` event in a run's trace is matched by a
`contextClosed` event for the same account index. -/
theorem C8_every_opened_context_closed (cfg : ConfigInput) (envs : Nat → BrowserEnv)
    (i : Nat) (h : Event.contextOpened i ∈ (main cfg envs).events) :
    Event.contextClosed i ∈ (main cfg envs).events := by
  cases cfg with
  | missing => simp [main] at h
  | invalid msg => simp [main] at h
  | parsed users =>
    unfold main at h ⊢
    by_cases he : users.isEmpty
    · simp [he] at h
    · simp only [he, Bool.false_eq_true, if_false] at h ⊢
      have hbase : Event.contextOpened i ∈
            ([Event.browserLaunched] : List Event) →
          Event.contextClosed i ∈ ([Event.browserLaunched] : List Event) := by
        intro hx; simp at hx
      cases hcr : (runUsers envs users.length 0 users
          { info := none, results := [], events := [Event.browserLaunched],
            crashed := none }).crashed with
      | some msg =>
        simp only [hcr] at h ⊢
        simp only [List.mem_append] at h ⊢
        rcases h with h | h
        · exact Or.inl (runUsers_contexts envs users.length users 0 _ i hbase h)
        · simp at h
      | none =>
        simp only [hcr] at h ⊢
        simp only [List.mem_append] at h ⊢
        rcases h with h | h
        · exact Or.inl (runUsers_contexts envs users.length users 0 _ i hbase h)
        · simp at h

/-- Witness for C8: in the single-account run, context 0 is opened and the
theorem produces its matching close. -/
theorem C8_every_opened_context_closed_witness :
    Event.contextClosed 0 ∈
      (main (ConfigInput.parsed [demoUser]) (fun _ => demoEnv)).events :=
  C8_every_opened_context_closed (ConfigInput.parsed [demoUser]) (fun _ => demoEnv) 0
    (by decide)

/-- Claim C9 (failing-input evaluation).  The claim says a fixed delay
follows each processed account except the last.  On two valid accounts the
run crashes at the first one before the sleep statement is reached, so no
delay event occurs at all (and the run aborts). -/
theorem C9_no_inter_account_delay_occurs :
    Event.delay 0 ∉
      (main (ConfigInput.parsed [demoUser, demoUser2]) (fun _ => demoEnv)).events ∧
    (main (ConfigInput.parsed [demoUser, demoUser2]) (fun _ => demoEnv)).crashed =
      some unboundInfoError := by
  decide

/-- Claim C10: a configuration that parses to an empty list makes `main`
print the empty notice and return — no browser launch, no output file. -/
theorem C10_empty_config_halts (envs : Nat → BrowserEnv) :
    main (ConfigInput.parsed []) envs =
      { events := [Event.emptyNotice], output := none, crashed := none } := rfl

/-- Witness for C10 at a concrete environment. -/
theorem C10_empty_config_halts_witness :
    main (ConfigInput.parsed []) (fun _ => demoEnv) =
      { events := [Event.emptyNotice], output := none, crashed := none } :=
  C10_empty_config_halts (fun _ => demoEnv)

end AutoLogin
